import Mathlib

/-!
Verification development for the reddit-clawler repository.

The Rust sources under `src/` are shallowly embedded as Lean definitions:

* `src/utils/state.rs` — disk cache schema (`FileCacheLatest` and its
  predecessors), the composite-key upsert `FileCacheLatest.upsert_item`,
  and the JSON migration chain `get_cache_from_serde_value`.
* `src/reddit_parser.rs` — the media classifier `parse_user_submitted`.
* `src/clients/reddit.rs` — listing-URL generation and the paginated
  fetch loops, with the HTTP transport abstracted as an oracle.
* `src/utils/downloader.rs` — `download_crawler_post`, with HTTP / file
  system effects abstracted as an oracle and file writes recorded as events.
* `src/cli/commands/user.rs` — the download loop (spawn + immediate join)
  and its per-outcome cache/stats updates.

Modelling conventions: Rust `u64`/`usize` become `Nat`, `i64` becomes `Int`;
`f64` byte totals become `Nat` (only whole byte counts are ever added);
`chrono::DateTime<Utc>` is modelled by its unix timestamp (an `Int`), and its
JSON image by a JSON number (chrono's RFC3339 string is a lossless encoding
of that timestamp); serde_json `Value` is modelled by the `Json` inductive
with objects as insertion-ordered association lists.
-/

set_option autoImplicit false

/-- `chrono::DateTime<Utc>`, modelled as a unix timestamp in seconds. -/
abbrev DateTimeUtc := Int

/-- `DownloadStats` from `src/utils/state.rs`. `bytes_downloaded` is `f64`
in the source but only ever accumulates whole byte counts, so it is
modelled as `Nat`. -/
structure DownloadStats where
  downloads_failed : Nat
  bytes_downloaded : Nat
  files_downloaded : Nat
  deriving DecidableEq, Repr

/-- `DownloadStats::default()`. -/
def DownloadStats.default : DownloadStats :=
  { downloads_failed := 0, bytes_downloaded := 0, files_downloaded := 0 }

/-- `FileCacheVersion` from `src/utils/state.rs`. -/
inductive FileCacheVersion where
  | Latest
  | V3
  | V2
  | V1
  deriving DecidableEq, Repr

/-- The integer emitted by `impl Serialize for FileCacheVersion`. -/
def FileCacheVersion.toInt : FileCacheVersion → Int
  | .V1 => 1
  | .V2 => 2
  | .V3 => 3
  | .Latest => 4

/-- `ResourceStatus` from `src/utils/state.rs`. -/
inductive ResourceStatus where
  | Active
  | Deleted
  | Suspended
  deriving DecidableEq, Repr

/-- `LastDownloadStatus` from `src/utils/state.rs`. -/
inductive LastDownloadStatus where
  | Success
  | RateLimit
  | Forbidden
  | Error
  deriving DecidableEq, Repr

/-- `FileCacheStatus` (v4, snake_case serialization) from `src/utils/state.rs`. -/
structure FileCacheStatus where
  resource : ResourceStatus
  last_download : LastDownloadStatus
  deriving DecidableEq, Repr

/-- `FileCacheStatusV3` (camelCase serialization) from `src/utils/state.rs`. -/
structure FileCacheStatusV3 where
  resource : ResourceStatus
  last_download : LastDownloadStatus
  deriving DecidableEq, Repr

/-- `FileCacheStatusV2` (camelCase serialization) from `src/utils/state.rs`. -/
structure FileCacheStatusV2 where
  resource : ResourceStatus
  last_download : LastDownloadStatus
  deriving DecidableEq, Repr

/-- `FileCacheItemLatest` from `src/utils/state.rs`. -/
structure FileCacheItemLatest where
  id : String
  created_utc : DateTimeUtc
  title : String
  subreddit : String
  url : String
  success : Bool
  index : Option Nat
  is_gallery : Option Bool
  media_id : Option String
  deriving DecidableEq, Repr

/-- `FileCacheItemV3` from `src/utils/state.rs`. -/
structure FileCacheItemV3 where
  id : String
  created_utc : DateTimeUtc
  title : String
  subreddit : String
  url : String
  success : Bool
  index : Option Nat
  is_gallery : Option Bool
  deriving DecidableEq, Repr

/-- `FileCacheItemV2` from `src/utils/state.rs`. -/
structure FileCacheItemV2 where
  id : String
  created_utc : DateTimeUtc
  title : String
  subreddit : String
  url : String
  success : Bool
  index : Option Nat
  deriving DecidableEq, Repr

/-- `FileCacheItemV1` from `src/utils/state.rs`. -/
structure FileCacheItemV1 where
  id : String
  created_utc : DateTimeUtc
  title : String
  subreddit : String
  url : String
  success : Bool
  index : Option Nat
  deriving DecidableEq, Repr

/-- `FileCacheLatest` from `src/utils/state.rs`. -/
structure FileCacheLatest where
  version : FileCacheVersion
  status : FileCacheStatus
  files : List FileCacheItemLatest
  deriving DecidableEq, Repr

/-- `FileCacheV3` from `src/utils/state.rs`. -/
structure FileCacheV3 where
  version : FileCacheVersion
  status : FileCacheStatusV3
  files : List FileCacheItemV3
  deriving DecidableEq, Repr

/-- `FileCacheV2` from `src/utils/state.rs`. -/
structure FileCacheV2 where
  version : FileCacheVersion
  status : FileCacheStatusV2
  files : List FileCacheItemV2
  deriving DecidableEq, Repr

/-- `FileCacheV1` from `src/utils/state.rs`. -/
structure FileCacheV1 where
  version : FileCacheVersion
  files : List FileCacheItemV1
  deriving DecidableEq, Repr

/-- `FileCacheError` from `src/utils/state.rs` (error payloads dropped). -/
inductive FileCacheError where
  | SerdeJson
  | Version
  | Upgrade
  deriving DecidableEq, Repr

/-- The composite-key test used by `FileCacheLatest::upsert_item`
(`src/utils/state.rs` lines 102–111): same `id`, same `index`, and
`media_id` matching where `None` matches only `None`. The first argument
is the existing entry `f`, the second the incoming `item`. -/
def matchesCompositeKey (f item : FileCacheItemLatest) : Bool :=
  let id_matches := f.id == item.id
  let index_matches := f.index == item.index
  let media_id_matches :=
    match item.media_id, f.media_id with
    | some new_mid, some existing_mid => new_mid == existing_mid
    | none, none => true
    | _, _ => false
  id_matches && index_matches && media_id_matches

/-- The field update performed on a matching entry by
`FileCacheLatest::upsert_item` (`src/utils/state.rs` lines 114–128),
including the source's conditional on `success`. -/
def updateExistingItem (existing_item item : FileCacheItemLatest) : FileCacheItemLatest :=
  { existing_item with
    success := if !item.success then false else item.success
    title := item.title
    url := item.url
    created_utc := item.created_utc
    subreddit := item.subreddit
    is_gallery := item.is_gallery
    media_id := item.media_id }

/-- The list transformation of `FileCacheLatest::upsert_item`: update the
first entry matching the incoming item's composite key in place, or push
the item at the end when no entry matches. -/
def upsertFiles : List FileCacheItemLatest → FileCacheItemLatest → List FileCacheItemLatest
  | [], item => [item]
  | f :: fs, item =>
    if matchesCompositeKey f item then updateExistingItem f item :: fs
    else f :: upsertFiles fs item

/-- `FileCacheLatest::upsert_item` from `src/utils/state.rs`. -/
def FileCacheLatest.upsert_item (c : FileCacheLatest) (item : FileCacheItemLatest) : FileCacheLatest :=
  { c with files := upsertFiles c.files item }

/-- At most one cache entry per composite key: no two distinct positions
hold entries matching each other's key. -/
def atMostOnePerKey (files : List FileCacheItemLatest) : Prop :=
  List.Pairwise (fun f g => matchesCompositeKey f g = false) files

/-- `serde_json::Value`, with objects as insertion-ordered association lists. -/
inductive Json where
  | null
  | bool (b : Bool)
  | num (n : Int)
  | str (s : String)
  | arr (elems : List Json)
  | obj (fields : List (String × Json))

/-- First-match key lookup in a JSON object's field list. -/
def lookupKey : List (String × Json) → String → Option Json
  | [], _ => none
  | (k, v) :: rest, key => if k = key then some v else lookupKey rest key

/-- `value[key]` read on a `serde_json::Value`. -/
def Json.getKey : Json → String → Option Json
  | .obj fields, key => lookupKey fields key
  | _, _ => none

/-- Replace the first binding of `key`, or append it at the end
(`serde_json`'s order-preserving map insert). -/
def setKeyFields : List (String × Json) → String → Json → List (String × Json)
  | [], key, v => [(key, v)]
  | (k, w) :: rest, key, v =>
    if k = key then (k, v) :: rest else (k, w) :: setKeyFields rest key v

/-- `value[key] = v` on a `serde_json::Value`. Non-objects are returned
unchanged; the migration chain only ever assigns into values it has already
parsed a `version` field out of, which are objects. -/
def Json.setKey : Json → String → Json → Json
  | .obj fields, key, v => .obj (setKeyFields fields key v)
  | j, _, _ => j

/-- Deserialize a JSON string (serde). -/
def expectStr : Json → Except FileCacheError String
  | .str s => .ok s
  | _ => .error .SerdeJson

/-- Deserialize a JSON boolean (serde). -/
def expectBool : Json → Except FileCacheError Bool
  | .bool b => .ok b
  | _ => .error .SerdeJson

/-- Deserialize a `usize` (serde rejects negatives). -/
def expectNat : Json → Except FileCacheError Nat
  | .num n => if n < 0 then .error .SerdeJson else .ok n.toNat
  | _ => .error .SerdeJson

/-- Deserialize a `DateTime<Utc>` (modelled as its timestamp). -/
def expectDateTime : Json → Except FileCacheError DateTimeUtc
  | .num n => .ok n
  | _ => .error .SerdeJson

/-- A required struct field: missing means a serde error. -/
def getRequired (j : Json) (key : String) : Except FileCacheError Json :=
  match j.getKey key with
  | some v => .ok v
  | none => .error .SerdeJson

/-- An `Option<T>` struct field: missing or `null` is `None` (serde). -/
def getOptionField {α : Type} (j : Json) (key : String)
    (p : Json → Except FileCacheError α) : Except FileCacheError (Option α) :=
  match j.getKey key with
  | none => .ok none
  | some .null => .ok none
  | some v => (p v).map some

/-- `impl Deserialize for FileCacheVersion`: an `i64` in `1..=4`. -/
def parseFileCacheVersion : Json → Except FileCacheError FileCacheVersion
  | .num 1 => .ok .V1
  | .num 2 => .ok .V2
  | .num 3 => .ok .V3
  | .num 4 => .ok .Latest
  | _ => .error .SerdeJson

/-- `impl Serialize for FileCacheVersion`. -/
def serializeFileCacheVersion (v : FileCacheVersion) : Json :=
  .num v.toInt

/-- Deserialize `PartialFileCache`, returning its only field. -/
def parsePartialFileCache (j : Json) : Except FileCacheError FileCacheVersion :=
  (getRequired j "version").bind parseFileCacheVersion

/-- Deserialize `ResourceStatus` (serde `rename_all = "lowercase"`). -/
def parseResourceStatus : Json → Except FileCacheError ResourceStatus
  | .str "active" => .ok .Active
  | .str "deleted" => .ok .Deleted
  | .str "suspended" => .ok .Suspended
  | _ => .error .SerdeJson

/-- Serialize `ResourceStatus`. -/
def serializeResourceStatus : ResourceStatus → Json
  | .Active => .str "active"
  | .Deleted => .str "deleted"
  | .Suspended => .str "suspended"

/-- Deserialize `LastDownloadStatus` (serde `rename_all = "lowercase"`). -/
def parseLastDownloadStatus : Json → Except FileCacheError LastDownloadStatus
  | .str "success" => .ok .Success
  | .str "ratelimit" => .ok .RateLimit
  | .str "forbidden" => .ok .Forbidden
  | .str "error" => .ok .Error
  | _ => .error .SerdeJson

/-- Serialize `LastDownloadStatus`. -/
def serializeLastDownloadStatus : LastDownloadStatus → Json
  | .Success => .str "success"
  | .RateLimit => .str "ratelimit"
  | .Forbidden => .str "forbidden"
  | .Error => .str "error"

/-- Deserialize `FileCacheStatusV2` (camelCase field names). -/
def parseFileCacheStatusV2 (j : Json) : Except FileCacheError FileCacheStatusV2 := do
  let resource ← (getRequired j "resource").bind parseResourceStatus
  let last_download ← (getRequired j "lastDownload").bind parseLastDownloadStatus
  return { resource := resource, last_download := last_download }

/-- Serialize `FileCacheStatusV2` (camelCase field names). -/
def serializeFileCacheStatusV2 (s : FileCacheStatusV2) : Json :=
  .obj [("resource", serializeResourceStatus s.resource),
        ("lastDownload", serializeLastDownloadStatus s.last_download)]

/-- Deserialize `FileCacheStatusV3` (camelCase field names). -/
def parseFileCacheStatusV3 (j : Json) : Except FileCacheError FileCacheStatusV3 := do
  let resource ← (getRequired j "resource").bind parseResourceStatus
  let last_download ← (getRequired j "lastDownload").bind parseLastDownloadStatus
  return { resource := resource, last_download := last_download }

/-- Deserialize `FileCacheStatus` (v4, snake_case field names). -/
def parseFileCacheStatus (j : Json) : Except FileCacheError FileCacheStatus := do
  let resource ← (getRequired j "resource").bind parseResourceStatus
  let last_download ← (getRequired j "last_download").bind parseLastDownloadStatus
  return { resource := resource, last_download := last_download }

/-- Serialize `FileCacheStatus` (v4, snake_case field names). -/
def serializeFileCacheStatus (s : FileCacheStatus) : Json :=
  .obj [("resource", serializeResourceStatus s.resource),
        ("last_download", serializeLastDownloadStatus s.last_download)]

/-- Deserialize `FileCacheItemV3` (camelCase; `isGallery` optional). -/
def parseFileCacheItemV3 (j : Json) : Except FileCacheError FileCacheItemV3 := do
  let id ← (getRequired j "id").bind expectStr
  let created_utc ← (getRequired j "createdUtc").bind expectDateTime
  let title ← (getRequired j "title").bind expectStr
  let subreddit ← (getRequired j "subreddit").bind expectStr
  let url ← (getRequired j "url").bind expectStr
  let success ← (getRequired j "success").bind expectBool
  let index ← getOptionField j "index" expectNat
  let is_gallery ← getOptionField j "isGallery" expectBool
  return { id := id, created_utc := created_utc, title := title,
           subreddit := subreddit, url := url, success := success,
           index := index, is_gallery := is_gallery }

/-- Deserialize `FileCacheItemLatest` (snake_case; `is_gallery` and
`media_id` optional). -/
def parseFileCacheItemLatest (j : Json) : Except FileCacheError FileCacheItemLatest := do
  let id ← (getRequired j "id").bind expectStr
  let created_utc ← (getRequired j "created_utc").bind expectDateTime
  let title ← (getRequired j "title").bind expectStr
  let subreddit ← (getRequired j "subreddit").bind expectStr
  let url ← (getRequired j "url").bind expectStr
  let success ← (getRequired j "success").bind expectBool
  let index ← getOptionField j "index" expectNat
  let is_gallery ← getOptionField j "is_gallery" expectBool
  let media_id ← getOptionField j "media_id" expectStr
  return { id := id, created_utc := created_utc, title := title,
           subreddit := subreddit, url := url, success := success,
           index := index, is_gallery := is_gallery, media_id := media_id }

/-- Serialize `FileCacheItemLatest`: snake_case, `index` always emitted
(as `null` when absent), `is_gallery`/`media_id` skipped when `None`
(`skip_serializing_if = "Option::is_none"`). -/
def serializeFileCacheItemLatest (it : FileCacheItemLatest) : Json :=
  .obj ([("id", .str it.id),
         ("created_utc", .num it.created_utc),
         ("title", .str it.title),
         ("subreddit", .str it.subreddit),
         ("url", .str it.url),
         ("success", .bool it.success),
         ("index", match it.index with | some n => .num n | none => .null)]
    ++ (match it.is_gallery with | some b => [("is_gallery", Json.bool b)] | none => [])
    ++ (match it.media_id with | some m => [("media_id", Json.str m)] | none => []))

/-- Deserialize a list of JSON values elementwise (serde `Vec` semantics:
the first element error aborts the whole parse). -/
def parseElems {α : Type} (p : Json → Except FileCacheError α) :
    List Json → Except FileCacheError (List α)
  | [] => .ok []
  | j :: rest => (p j).bind (fun a => (parseElems p rest).map (fun as => a :: as))

/-- Deserialize an array of JSON values elementwise. -/
def parseArray {α : Type} (p : Json → Except FileCacheError α) :
    Json → Except FileCacheError (List α)
  | .arr elems => parseElems p elems
  | _ => .error .SerdeJson

/-- Deserialize `FileCacheV3` (camelCase). -/
def parseFileCacheV3 (j : Json) : Except FileCacheError FileCacheV3 := do
  let version ← (getRequired j "version").bind parseFileCacheVersion
  let status ← (getRequired j "status").bind parseFileCacheStatusV3
  let files ← (getRequired j "files").bind (parseArray parseFileCacheItemV3)
  return { version := version, status := status, files := files }

/-- Deserialize `FileCacheLatest` (snake_case). -/
def parseFileCacheLatest (j : Json) : Except FileCacheError FileCacheLatest := do
  let version ← (getRequired j "version").bind parseFileCacheVersion
  let status ← (getRequired j "status").bind parseFileCacheStatus
  let files ← (getRequired j "files").bind (parseArray parseFileCacheItemLatest)
  return { version := version, status := status, files := files }

/-- Serialize `FileCacheLatest` (field order: version, status, files). -/
def serializeFileCacheLatest (c : FileCacheLatest) : Json :=
  .obj [("version", serializeFileCacheVersion c.version),
        ("status", serializeFileCacheStatus c.status),
        ("files", .arr (c.files.map serializeFileCacheItemLatest))]

/-- Serialize `FileCacheItemV1` (camelCase, no optional-skip fields). -/
def serializeFileCacheItemV1 (it : FileCacheItemV1) : Json :=
  .obj [("id", .str it.id),
        ("createdUtc", .num it.created_utc),
        ("title", .str it.title),
        ("subreddit", .str it.subreddit),
        ("url", .str it.url),
        ("success", .bool it.success),
        ("index", match it.index with | some n => .num n | none => .null)]

/-- Serialize `FileCacheV1` (camelCase; field order: version, files). -/
def serializeFileCacheV1 (c : FileCacheV1) : Json :=
  .obj [("version", serializeFileCacheVersion c.version),
        ("files", .arr (c.files.map serializeFileCacheItemV1))]

/-- The V3 → V4 value conversion inside `get_cache_from_serde_value`
(`src/utils/state.rs` lines 271–292): renames the serialization case and
adds `media_id: None` to every file entry. -/
def v3CacheToLatest (v3_cache : FileCacheV3) : FileCacheLatest :=
  { version := .Latest,
    status := { resource := v3_cache.status.resource,
                last_download := v3_cache.status.last_download },
    files := v3_cache.files.map (fun item =>
      { id := item.id, created_utc := item.created_utc, title := item.title,
        subreddit := item.subreddit, url := item.url, success := item.success,
        index := item.index, is_gallery := item.is_gallery, media_id := none }) }

/-- `get_cache_from_serde_value` from `src/utils/state.rs`, with explicit
fuel for the recursion. The source recursion strictly increases the
`version` field (1 → 2 → 3, and 3 and 4 do not recurse), so fuel 4 is
never exhausted from a parseable payload. -/
def migrateCacheValue : Nat → Json → Except FileCacheError FileCacheLatest
  | 0, _ => .error .Upgrade
  | fuel + 1, value =>
    match parsePartialFileCache value with
    | .error e => .error e
    | .ok version =>
      match version with
      | .V1 =>
        let value := value.setKey "version" (serializeFileCacheVersion .V2)
        let value := value.setKey "status"
          (serializeFileCacheStatusV2 { resource := .Active, last_download := .Success })
        migrateCacheValue fuel value
      | .V2 =>
        migrateCacheValue fuel (value.setKey "version" (serializeFileCacheVersion .V3))
      | .V3 => (parseFileCacheV3 value).map v3CacheToLatest
      | .Latest => parseFileCacheLatest value

/-- `get_cache_from_serde_value` at its call interface: the chain is at
most three steps deep (1 → 2 → 3 → done). -/
def get_cache_from_serde_value (value : Json) : Except FileCacheError FileCacheLatest :=
  migrateCacheValue 4 value

theorem expectNat_natCast (n : Nat) : expectNat (.num (n : Int)) = .ok n := by
  simp [expectNat]

theorem parse_serialize_statusLatest (s : FileCacheStatus) :
    parseFileCacheStatus (serializeFileCacheStatus s) = .ok s := by
  obtain ⟨r, ld⟩ := s
  cases r <;> cases ld <;> rfl

theorem parse_serialize_itemLatest (it : FileCacheItemLatest) :
    parseFileCacheItemLatest (serializeFileCacheItemLatest it) = .ok it := by
  obtain ⟨id, cu, t, sr, u, suc, idx, ig, mid⟩ := it
  cases idx <;> cases ig <;> cases mid <;>
    simp [parseFileCacheItemLatest, serializeFileCacheItemLatest, getRequired,
      getOptionField, Json.getKey, lookupKey, expectStr, expectBool,
      expectNat_natCast, expectDateTime, bind, Except.bind, pure, Except.pure,
      Functor.map, Except.map]

theorem parseElems_serialize_itemsLatest (files : List FileCacheItemLatest) :
    parseElems parseFileCacheItemLatest (files.map serializeFileCacheItemLatest) = .ok files := by
  induction files with
  | nil => rfl
  | cons f fs ih =>
    simp [parseElems, parse_serialize_itemLatest, ih, Except.bind, Except.map]

theorem parse_serialize_version (v : FileCacheVersion) :
    parseFileCacheVersion (serializeFileCacheVersion v) = .ok v := by
  cases v <;> rfl

theorem parse_serialize_cacheLatest (c : FileCacheLatest) :
    parseFileCacheLatest (serializeFileCacheLatest c) = .ok c := by
  obtain ⟨v, s, files⟩ := c
  simp [parseFileCacheLatest, serializeFileCacheLatest, getRequired, Json.getKey,
    lookupKey, parse_serialize_version, parse_serialize_statusLatest, parseArray,
    parseElems_serialize_itemsLatest, bind, Except.bind, pure, Except.pure]

theorem parsePartial_serialize_cacheLatest (c : FileCacheLatest) :
    parsePartialFileCache (serializeFileCacheLatest c) = .ok c.version := by
  simp [parsePartialFileCache, serializeFileCacheLatest, getRequired, Json.getKey,
    lookupKey, parse_serialize_version, bind, Except.bind]

theorem parseFileCacheLatest_version (j : Json) (c : FileCacheLatest)
    (h : parseFileCacheLatest j = .ok c) :
    parsePartialFileCache j = .ok c.version := by
  unfold parseFileCacheLatest at h
  unfold parsePartialFileCache
  cases hv : (getRequired j "version").bind parseFileCacheVersion with
  | error e => rw [hv] at h; exact absurd h (by simp [bind, Except.bind])
  | ok ver =>
    rw [hv] at h
    cases hs : (getRequired j "status").bind parseFileCacheStatus with
    | error e => rw [hs] at h; exact absurd h (by simp [bind, Except.bind])
    | ok st =>
      rw [hs] at h
      cases hf : (getRequired j "files").bind (parseArray parseFileCacheItemLatest) with
      | error e => rw [hf] at h; exact absurd h (by simp [bind, Except.bind])
      | ok fs =>
        rw [hf] at h
        simp only [bind, Except.bind, pure, Except.pure] at h
        cases h
        rfl

/-- Any cache the migration chain produces carries the latest version tag. -/
theorem migrateCacheValue_version (fuel : Nat) (j : Json) (c : FileCacheLatest)
    (h : migrateCacheValue fuel j = .ok c) : c.version = .Latest := by
  induction fuel generalizing j with
  | zero => exact absurd h (by simp [migrateCacheValue])
  | succ n ih =>
    unfold migrateCacheValue at h
    cases hp : parsePartialFileCache j with
    | error e => rw [hp] at h; exact absurd h (by simp)
    | ok version =>
      rw [hp] at h
      cases version with
      | V1 => exact ih _ h
      | V2 => exact ih _ h
      | V3 =>
        cases hv3 : parseFileCacheV3 j with
        | error e => rw [hv3] at h; exact absurd h (by simp [Except.map])
        | ok v3 =>
          rw [hv3] at h
          simp [Except.map] at h
          rw [← h]
          rfl
      | Latest =>
        have := parseFileCacheLatest_version j c h
        rw [hp] at this
        exact (Except.ok.injEq _ _).mp this.symm

/-- C5: for every JSON payload the migration chain accepts, serializing
the migrated cache and migrating again returns the same cache, and on an
already-latest payload migration is exactly the latest-schema parse. -/
theorem cacheMigration_idempotent (v : Json) (c : FileCacheLatest)
    (h : get_cache_from_serde_value v = .ok c) :
    get_cache_from_serde_value (serializeFileCacheLatest c) = .ok c ∧
    get_cache_from_serde_value (serializeFileCacheLatest c) =
      parseFileCacheLatest (serializeFileCacheLatest c) := by
  have hver : c.version = .Latest := migrateCacheValue_version 4 v c h
  have h1 : parsePartialFileCache (serializeFileCacheLatest c) = .ok .Latest := by
    rw [parsePartial_serialize_cacheLatest, hver]
  constructor
  · show migrateCacheValue 4 _ = _
    unfold migrateCacheValue
    rw [h1]
    exact parse_serialize_cacheLatest c
  · show migrateCacheValue 4 _ = _
    unfold migrateCacheValue
    rw [h1]

/-- Witness for C5 at a concrete v1 payload. -/
theorem cacheMigration_idempotent_witness :
    get_cache_from_serde_value (Json.obj [("version", Json.num 1), ("files", Json.arr [])]) =
      .ok { version := .Latest,
            status := { resource := .Active, last_download := .Success },
            files := [] } ∧
    get_cache_from_serde_value (serializeFileCacheLatest
      { version := .Latest,
        status := { resource := .Active, last_download := .Success },
        files := [] }) =
      .ok { version := .Latest,
            status := { resource := .Active, last_download := .Success },
            files := [] } :=
  ⟨by rfl, (cacheMigration_idempotent (Json.obj [("version", Json.num 1), ("files", Json.arr [])]) _ (by rfl)).1⟩

/-- The latest-schema image of a v1 file entry: the v1 fields are kept and
the two fields added later are absent. -/
def v1ItemToLatest (it : FileCacheItemV1) : FileCacheItemLatest :=
  { id := it.id, created_utc := it.created_utc, title := it.title,
    subreddit := it.subreddit, url := it.url, success := it.success,
    index := it.index, is_gallery := none, media_id := none }

theorem parse_v3_serialize_itemV1 (it : FileCacheItemV1) :
    parseFileCacheItemV3 (serializeFileCacheItemV1 it) =
      .ok { id := it.id, created_utc := it.created_utc, title := it.title,
            subreddit := it.subreddit, url := it.url, success := it.success,
            index := it.index, is_gallery := none } := by
  obtain ⟨id, cu, t, sr, u, suc, idx⟩ := it
  cases idx <;>
    simp [parseFileCacheItemV3, serializeFileCacheItemV1, getRequired,
      getOptionField, Json.getKey, lookupKey, expectStr, expectBool,
      expectNat_natCast, expectDateTime, bind, Except.bind, pure, Except.pure,
      Functor.map, Except.map]

theorem parseElems_v3_serialize_itemsV1 (files : List FileCacheItemV1) :
    parseElems parseFileCacheItemV3 (files.map serializeFileCacheItemV1) =
      .ok (files.map fun it =>
        ({ id := it.id, created_utc := it.created_utc, title := it.title,
           subreddit := it.subreddit, url := it.url, success := it.success,
           index := it.index, is_gallery := none } : FileCacheItemV3)) := by
  induction files with
  | nil => rfl
  | cons f fs ih =>
    simp [parseElems, parse_v3_serialize_itemV1, ih, Except.bind, Except.map]

/-- C6: a serialized v1 cache runs the whole chain and lands on the latest
schema with the default status and the v1 entry fields preserved. -/
theorem cacheMigration_v1_chain (c1 : FileCacheV1) (h : c1.version = .V1) :
    get_cache_from_serde_value (serializeFileCacheV1 c1) =
      .ok { version := .Latest,
            status := { resource := .Active, last_download := .Success },
            files := c1.files.map v1ItemToLatest } := by
  obtain ⟨ver, files⟩ := c1
  subst h
  simp [get_cache_from_serde_value, migrateCacheValue, serializeFileCacheV1,
    serializeFileCacheVersion, FileCacheVersion.toInt, parsePartialFileCache,
    getRequired, Json.getKey, lookupKey, parseFileCacheVersion, Json.setKey,
    setKeyFields, serializeFileCacheStatusV2, serializeResourceStatus,
    serializeLastDownloadStatus, parseFileCacheV3, parseFileCacheStatusV3,
    parseResourceStatus, parseLastDownloadStatus, parseArray,
    parseElems_v3_serialize_itemsV1, v3CacheToLatest, v1ItemToLatest,
    bind, Except.bind, pure, Except.pure, Except.map, List.map_map,
    Function.comp]

/-- Witness for C6 at a concrete one-entry v1 cache. -/
theorem cacheMigration_v1_chain_witness :
    get_cache_from_serde_value (serializeFileCacheV1
      { version := .V1,
        files := [{ id := "p1", created_utc := 1700000000, title := "t",
                    subreddit := "s", url := "u", success := true,
                    index := none }] }) =
      .ok { version := .Latest,
            status := { resource := .Active, last_download := .Success },
            files := [{ id := "p1", created_utc := 1700000000, title := "t",
                        subreddit := "s", url := "u", success := true,
                        index := none, is_gallery := none, media_id := none }] } :=
  cacheMigration_v1_chain _ rfl

theorem updateExistingItem_eq (f item : FileCacheItemLatest) :
    updateExistingItem f item =
      { f with
        success := item.success
        title := item.title
        url := item.url
        created_utc := item.created_utc
        subreddit := item.subreddit
        is_gallery := item.is_gallery
        media_id := item.media_id } := by
  cases h : item.success <;> simp [updateExistingItem, h]

theorem upsertFiles_no_match (files : List FileCacheItemLatest)
    (item : FileCacheItemLatest)
    (h : ∀ f ∈ files, matchesCompositeKey f item = false) :
    upsertFiles files item = files ++ [item] := by
  induction files with
  | nil => rfl
  | cons f fs ih =>
    have hf : matchesCompositeKey f item = false := h f (by simp)
    simp [upsertFiles, hf, ih fun g hg => h g (by simp [hg])]

theorem upsertFiles_first_match (pre post : List FileCacheItemLatest)
    (f item : FileCacheItemLatest)
    (hpre : ∀ g ∈ pre, matchesCompositeKey g item = false)
    (hf : matchesCompositeKey f item = true) :
    upsertFiles (pre ++ f :: post) item = pre ++ updateExistingItem f item :: post := by
  induction pre with
  | nil => simp [upsertFiles, hf]
  | cons g gs ih =>
    have hg : matchesCompositeKey g item = false := hpre g (by simp)
    simp [upsertFiles, hg, ih fun g' hg' => hpre g' (by simp [hg'])]

/-- C2: `upsert_item` appends when no entry matches the incoming composite
key, and otherwise rewrites the first matching entry with every incoming
mutable field — the stored `success` flag is replaced by the incoming one
unconditionally (an incoming `false` overwrites a stored `true`). -/
theorem upsert_item_lastWriteWins (c : FileCacheLatest) (item : FileCacheItemLatest) :
    ((∀ f ∈ c.files, matchesCompositeKey f item = false) →
      (c.upsert_item item).files = c.files ++ [item]) ∧
    (∀ pre post f, c.files = pre ++ f :: post →
      (∀ g ∈ pre, matchesCompositeKey g item = false) →
      matchesCompositeKey f item = true →
      (c.upsert_item item).files =
        pre ++ { f with
                 success := item.success
                 title := item.title
                 url := item.url
                 created_utc := item.created_utc
                 subreddit := item.subreddit
                 is_gallery := item.is_gallery
                 media_id := item.media_id } :: post) := by
  constructor
  · intro h
    simp [FileCacheLatest.upsert_item, upsertFiles_no_match c.files item h]
  · intro pre post f hsplit hpre hf
    simp [FileCacheLatest.upsert_item, hsplit,
      upsertFiles_first_match pre post f item hpre hf, updateExistingItem_eq]

/-- A stored success entry used by the C2 witness. -/
def c2StoredItem : FileCacheItemLatest :=
  { id := "p1", created_utc := 1, title := "old", subreddit := "s",
    url := "u1", success := true, index := none, is_gallery := none,
    media_id := none }

/-- An incoming failure entry used by the C2 witness. -/
def c2IncomingItem : FileCacheItemLatest :=
  { id := "p1", created_utc := 2, title := "new", subreddit := "s",
    url := "u2", success := false, index := none, is_gallery := some false,
    media_id := none }

/-- Witness for C2: an incoming failure entry overwrites a stored success
entry sharing its composite key. -/
theorem upsert_item_lastWriteWins_witness :
    (FileCacheLatest.upsert_item
      { version := .Latest,
        status := { resource := .Active, last_download := .Success },
        files := [c2StoredItem] } c2IncomingItem).files =
    [{ id := "p1", created_utc := 2, title := "new", subreddit := "s",
       url := "u2", success := false, index := none, is_gallery := some false,
       media_id := none }] := by
  have h := (upsert_item_lastWriteWins
    { version := .Latest,
      status := { resource := .Active, last_download := .Success },
      files := [c2StoredItem] } c2IncomingItem).2 [] [] c2StoredItem rfl
    (by simp) (by decide)
  simpa [c2StoredItem, c2IncomingItem] using h

/-!
Reddit API payload types, from
`src/clients/api_types/reddit/submitted_response.rs`. That snapshot lags the
parser: `reddit_parser.rs` also reads `data.preview`, `media.reddit_video`,
and optional `s.u` / `s.mp4` in the media metadata, so those fields are
included here as the parser consumes them. `HashMap<String, _>` becomes an
insertion-ordered association list (a determinization of Rust's arbitrary
`HashMap` iteration order).
-/

/-- `Source` (a preview image source). -/
structure Source where
  url : String
  width : Int
  height : Int
  deriving DecidableEq, Repr

/-- One entry of `Variants` as the parser reads it (`mp4_src.source.url`). -/
structure MediaVariant where
  source : Source
  deriving DecidableEq, Repr

/-- `Variants` as the parser reads it (`variants.mp4`, `variants.gif`). -/
structure Variants where
  mp4 : Option MediaVariant
  gif : Option MediaVariant
  deriving DecidableEq, Repr

/-- `Image` (one preview image). -/
structure Image where
  source : Source
  variants : Variants
  id : String
  deriving DecidableEq, Repr

/-- `Preview`. -/
structure Preview where
  images : List Image
  enabled : Bool
  deriving DecidableEq, Repr

/-- `RedditVideo`. -/
structure RedditVideo where
  bitrate_kbps : Int
  fallback_url : String
  height : Int
  width : Int
  scrubber_media_url : String
  dash_url : String
  duration : Int
  hls_url : String
  is_gif : Bool
  transcoding_status : String
  has_audio : Option Bool
  deriving DecidableEq, Repr

/-- `Media` as the parser reads it (`type_field`, `reddit_video`). -/
structure Media where
  type_field : Option String
  reddit_video : Option RedditVideo
  deriving DecidableEq, Repr

/-- `S` (resolved media-metadata source) as the parser reads it
(`s.u`, `s.mp4`, both optional). -/
structure S where
  y : Int
  x : Int
  u : Option String
  mp4 : Option String
  deriving DecidableEq, Repr

/-- `MediaMetadataValue`. -/
structure MediaMetadataValue where
  status : String
  s : Option S
  id : Option String
  deriving DecidableEq, Repr

/-- `Item` (one gallery item). -/
structure Item where
  media_id : String
  id : Int
  deriving DecidableEq, Repr

/-- `GalleryData`. -/
structure GalleryData where
  items : List Item
  deriving DecidableEq, Repr

/-- `RedditSubmittedChildData` (the fields kept by the snapshot, plus
`preview` which the parser destructures). -/
structure RedditSubmittedChildData where
  subreddit : String
  title : String
  is_reddit_media_domain : Bool
  media_only : Bool
  ups : Int
  id : String
  author : String
  url : String
  created_utc : DateTimeUtc
  media : Option Media
  is_video : Option Bool
  is_gallery : Option Bool
  media_metadata : Option (List (String × MediaMetadataValue))
  gallery_data : Option GalleryData
  preview : Option Preview
  deriving DecidableEq, Repr

/-- `RedditSubmittedChild`. -/
structure RedditSubmittedChild where
  kind : String
  data : RedditSubmittedChildData
  deriving DecidableEq, Repr

/-- `Data` (one listing page). -/
structure Data where
  after : Option String
  children : List RedditSubmittedChild
  deriving DecidableEq, Repr

/-- `RedditSubmittedResponse`. -/
structure RedditSubmittedResponse where
  kind : String
  data : Data
  deriving DecidableEq, Repr

/-- `HashMap::get` on the association-list model (first match). -/
def mmLookup : List (String × MediaMetadataValue) → String → Option MediaMetadataValue
  | [], _ => none
  | (k, v) :: rest, key => if k = key then some v else mmLookup rest key

/-- `RedditMediaProviderType` from `src/reddit_parser.rs`. -/
inductive RedditMediaProviderType where
  | RedditImage
  | RedditGifVideo
  | RedditVideo
  | RedditGalleryImage
  | ImgurImage
  | YoutubeVideo
  | RedgifsImage
  | RedgifsVideo
  | None
  deriving DecidableEq, Repr

/-- `RedditCrawlerPost` from `src/reddit_parser.rs`. The snapshot of the
parser predates the `is_gallery`/`media_id` fields that
`src/utils/downloader.rs` and `src/cli/commands/user.rs` destructure from
this struct; they are carried here (the parser leaves them `none`). -/
structure RedditCrawlerPost where
  author : String
  created_utc : DateTimeUtc
  extension : String
  id : String
  provider : RedditMediaProviderType
  subreddit : String
  title : String
  upvotes : Int
  url : String
  index : Option Nat
  is_gallery : Option Bool
  media_id : Option String
  deriving DecidableEq, Repr

/-- Split a character list at every occurrence of `sep` (the character-level
core of `str::split`). -/
def splitOnChar (sep : Char) : List Char → List (List Char)
  | [] => [[]]
  | c :: rest =>
    let r := splitOnChar sep rest
    if c = sep then [] :: r
    else
      match r with
      | g :: gs => (c :: g) :: gs
      | [] => [[c]]

/-- `url.split('.').rev().take(1).collect::<String>()`: the text after the
last dot (the whole string when it has no dot). -/
def lastExtension (url : String) : String :=
  String.mk ((splitOnChar '.' url.data).getLastD [])

/-- Substring search on character lists (`str::contains`). -/
def containsSub : List Char → List Char → Bool
  | [], pat => pat.isEmpty
  | c :: rest, pat => pat.isPrefixOf (c :: rest) || containsSub rest pat

/-- `str::contains` for the literal patterns used by the parser. -/
def strContains (s pat : String) : Bool :=
  containsSub s.data pat.data

/-- The gallery branch of `parse_user_submitted`
(`src/reddit_parser.rs` lines 192–227): one `RedditGalleryImage` post per
gallery item whose metadata resolves to a source URL `u`, indexed by the
item's position in `gallery_data.items`. -/
def galleryPosts (data : RedditSubmittedChildData)
    (media_metadata : List (String × MediaMetadataValue))
    (gallery_data : GalleryData) : List RedditCrawlerPost :=
  let media_ids := gallery_data.items.map (fun item => item.media_id)
  media_ids.enum.filterMap (fun q =>
    (mmLookup media_metadata q.2).bind (fun media =>
      media.s.bind (fun s_media =>
        s_media.u.map (fun u =>
          { author := data.author, created_utc := data.created_utc,
            extension := "webp", id := data.id, index := some q.1,
            provider := .RedditGalleryImage, subreddit := data.subreddit,
            title := data.title ++ "-" ++ toString q.1, upvotes := data.ups,
            url := u, is_gallery := none, media_id := none }))))

/-- The media-metadata mp4 branch of `parse_user_submitted`
(`src/reddit_parser.rs` lines 230–257): one `RedditGifVideo` post per
metadata key whose entry resolves to an mp4 URL. -/
def metadataMp4Posts (data : RedditSubmittedChildData)
    (media_metadata : List (String × MediaMetadataValue)) : List RedditCrawlerPost :=
  let media_ids := media_metadata.map (fun kv => kv.1)
  media_ids.enum.filterMap (fun q =>
    (mmLookup media_metadata q.2).bind (fun media =>
      media.s.bind (fun s_media =>
        s_media.mp4.map (fun mp4 =>
          { author := data.author, created_utc := data.created_utc,
            extension := "mp4", id := data.id, index := some q.1,
            provider := .RedditGifVideo, subreddit := data.subreddit,
            title := data.title ++ "-" ++ toString q.1, upvotes := data.ups,
            url := mp4, is_gallery := none, media_id := none }))))

/-- The preview embedded-mp4 list (`src/reddit_parser.rs` lines 90–112). -/
def previewMp4Posts (data : RedditSubmittedChildData) : Option (List RedditCrawlerPost) :=
  data.preview.map (fun preview =>
    preview.images.filterMap (fun image =>
      image.variants.mp4.map (fun mp4_src =>
        { author := data.author, created_utc := data.created_utc,
          extension := "mp4", id := data.id, index := none,
          provider := .RedditImage, subreddit := data.subreddit,
          title := data.title, upvotes := data.ups,
          url := mp4_src.source.url, is_gallery := none, media_id := none })))

/-- The preview embedded-gif list (`src/reddit_parser.rs` lines 120–142). -/
def previewGifPosts (data : RedditSubmittedChildData) : Option (List RedditCrawlerPost) :=
  data.preview.map (fun preview =>
    preview.images.filterMap (fun image =>
      image.variants.gif.map (fun gif_src =>
        { author := data.author, created_utc := data.created_utc,
          extension := "gif", id := data.id, index := none,
          provider := .RedditGifVideo, subreddit := data.subreddit,
          title := data.title, upvotes := data.ups,
          url := gif_src.source.url, is_gallery := none, media_id := none })))

/-- The `is_reddit_media_domain == true` arm of `parse_user_submitted`
(`src/reddit_parser.rs` lines 67–188). -/
def parseRedditDomainPosts (data : RedditSubmittedChildData) : List RedditCrawlerPost :=
  match data.is_video with
  | some true =>
    match data.media with
    | some m =>
      match m.reddit_video with
      | some u =>
        [{ author := data.author, created_utc := data.created_utc,
           extension := "mp4", id := data.id, index := none,
           provider := .RedditVideo, subreddit := data.subreddit,
           title := data.title, upvotes := data.ups,
           url := u.hls_url, is_gallery := none, media_id := none }]
      | none => []
    | none => []
  | some false =>
    let videos := previewMp4Posts data
    if videos.getD [] ≠ [] then videos.getD []
    else
      let gifs := previewGifPosts data
      if gifs.getD [] ≠ [] then gifs.getD []
      else
        let extension := lastExtension data.url
        if extension = "gif" then
          [{ author := data.author, created_utc := data.created_utc,
             extension := "gif", id := data.id, index := none,
             provider := .RedditImage, subreddit := data.subreddit,
             title := data.title, upvotes := data.ups,
             url := data.url, is_gallery := none, media_id := none }]
        else
          [{ author := data.author, created_utc := data.created_utc,
             extension := "webp", id := data.id, index := none,
             provider := .RedditImage, subreddit := data.subreddit,
             title := data.title, upvotes := data.ups,
             url := data.url, is_gallery := none, media_id := none }]
  | none => []

/-- The URL-substring fallbacks of `parse_user_submitted`
(`src/reddit_parser.rs` lines 281–337): redgifs image, redgifs video,
imgur, then the empty result. -/
def parseUrlFallbackPosts (data : RedditSubmittedChildData) : List RedditCrawlerPost :=
  if strContains data.url "redgifs.com/i/" then
    [{ author := data.author, created_utc := data.created_utc,
       extension := "webp", id := data.id, index := none,
       provider := .RedgifsImage, subreddit := data.subreddit,
       title := data.title, upvotes := data.ups,
       url := data.url, is_gallery := none, media_id := none }]
  else if strContains data.url "redgifs.com/watch/" || strContains data.url "redgifs.com/ifr/" then
    [{ author := data.author, created_utc := data.created_utc,
       extension := "mp4", id := data.id, index := none,
       provider := .RedgifsVideo, subreddit := data.subreddit,
       title := data.title, upvotes := data.ups,
       url := data.url, is_gallery := none, media_id := none }]
  else if strContains data.url "imgur" then
    [{ author := data.author, created_utc := data.created_utc,
       extension := lastExtension data.url, id := data.id, index := none,
       provider := .ImgurImage, subreddit := data.subreddit,
       title := data.title, upvotes := data.ups,
       url := data.url, is_gallery := none, media_id := none }]
  else []

/-- The YouTube-embed check of `parse_user_submitted`
(`src/reddit_parser.rs` lines 260–280), falling through to the URL checks. -/
def parseEmbedPosts (data : RedditSubmittedChildData) : List RedditCrawlerPost :=
  match data.media with
  | some m =>
    match m.type_field with
    | some tf =>
      if tf = "youtube.com" then
        [{ author := data.author, created_utc := data.created_utc,
           extension := "mp4", id := data.id, index := none,
           provider := .YoutubeVideo, subreddit := data.subreddit,
           title := data.title, upvotes := data.ups,
           url := data.url, is_gallery := none, media_id := none }]
      else parseUrlFallbackPosts data
    | none => parseUrlFallbackPosts data
  | none => parseUrlFallbackPosts data

/-- The `is_reddit_media_domain == false` arm of `parse_user_submitted`
(`src/reddit_parser.rs` lines 190–334). A gallery flag without
`gallery_data` falls through to the media-metadata mp4 branch, exactly as
the nested `if let`s do. -/
def parseNonRedditDomainPosts (data : RedditSubmittedChildData) : List RedditCrawlerPost :=
  match data.media_metadata, data.is_gallery with
  | some media_metadata, some true =>
    match data.gallery_data with
    | some gallery_data => galleryPosts data media_metadata gallery_data
    | none => metadataMp4Posts data media_metadata
  | some media_metadata, _ => metadataMp4Posts data media_metadata
  | none, _ => parseEmbedPosts data

/-- `RedditPostParser::parse_user_submitted` from `src/reddit_parser.rs`. -/
def parse_user_submitted (child : RedditSubmittedChild) : List RedditCrawlerPost :=
  match child.data.is_reddit_media_domain with
  | true => parseRedditDomainPosts child.data
  | false => parseNonRedditDomainPosts child.data

/-- `RedditPostParser::parse`: concatenation over a page's children. -/
def parsePosts (response : RedditSubmittedResponse) : List RedditCrawlerPost :=
  response.data.children.flatMap parse_user_submitted

theorem mem_galleryPosts_provider (data : RedditSubmittedChildData)
    (mm : List (String × MediaMetadataValue)) (gd : GalleryData)
    (p : RedditCrawlerPost) (hp : p ∈ galleryPosts data mm gd) :
    p.provider = .RedditGalleryImage := by
  simp only [galleryPosts, List.mem_filterMap, Option.bind_eq_some,
    Option.map_eq_some'] at hp
  obtain ⟨q, _, md, _, sm, _, u, _, hpost⟩ := hp
  exact hpost ▸ rfl

theorem mem_metadataMp4Posts_provider (data : RedditSubmittedChildData)
    (mm : List (String × MediaMetadataValue))
    (p : RedditCrawlerPost) (hp : p ∈ metadataMp4Posts data mm) :
    p.provider = .RedditGifVideo := by
  simp only [metadataMp4Posts, List.mem_filterMap, Option.bind_eq_some,
    Option.map_eq_some'] at hp
  obtain ⟨q, _, md, _, sm, _, u, _, hpost⟩ := hp
  exact hpost ▸ rfl

theorem mem_previewMp4Posts_provider (data : RedditSubmittedChildData)
    (p : RedditCrawlerPost) (hp : p ∈ (previewMp4Posts data).getD []) :
    p.provider = .RedditImage := by
  cases hpre : data.preview with
  | none => simp [previewMp4Posts, hpre] at hp
  | some preview =>
    simp only [previewMp4Posts, hpre, Option.map_some', Option.getD_some,
      List.mem_filterMap, Option.map_eq_some'] at hp
    obtain ⟨image, _, v, _, hpost⟩ := hp
    exact hpost ▸ rfl

theorem mem_previewGifPosts_provider (data : RedditSubmittedChildData)
    (p : RedditCrawlerPost) (hp : p ∈ (previewGifPosts data).getD []) :
    p.provider = .RedditGifVideo := by
  cases hpre : data.preview with
  | none => simp [previewGifPosts, hpre] at hp
  | some preview =>
    simp only [previewGifPosts, hpre, Option.map_some', Option.getD_some,
      List.mem_filterMap, Option.map_eq_some'] at hp
    obtain ⟨image, _, v, _, hpost⟩ := hp
    exact hpost ▸ rfl

theorem parseUrlFallbackPosts_length (data : RedditSubmittedChildData) :
    (parseUrlFallbackPosts data).length ≤ 1 := by
  unfold parseUrlFallbackPosts
  split
  · simp
  · split
    · simp
    · split <;> simp

theorem parseEmbedPosts_length (data : RedditSubmittedChildData) :
    (parseEmbedPosts data).length ≤ 1 := by
  unfold parseEmbedPosts
  split
  · split
    · split
      · simp
      · exact parseUrlFallbackPosts_length data
    · exact parseUrlFallbackPosts_length data
  · exact parseUrlFallbackPosts_length data

/-- C3 (amended): a result with two or more descriptors is homogeneous in
provider, and that provider is the gallery provider, the metadata/preview
gif-video provider, or the preview image provider. -/
theorem parse_multi_descriptor_homogeneous (child : RedditSubmittedChild)
    (h : 2 ≤ (parse_user_submitted child).length) :
    (∀ p ∈ parse_user_submitted child, p.provider = .RedditGalleryImage) ∨
    (∀ p ∈ parse_user_submitted child, p.provider = .RedditGifVideo) ∨
    (∀ p ∈ parse_user_submitted child, p.provider = .RedditImage) := by
  cases hdom : child.data.is_reddit_media_domain with
  | true =>
    simp only [parse_user_submitted, hdom] at h ⊢
    rcases hv : child.data.is_video with _ | b
    · simp [parseRedditDomainPosts, hv] at h
    · cases b with
      | false =>
        simp only [parseRedditDomainPosts, hv] at h ⊢
        by_cases h1 : (previewMp4Posts child.data).getD [] ≠ []
        · rw [if_pos h1] at h ⊢
          right; right
          exact fun p hp => mem_previewMp4Posts_provider child.data p hp
        · rw [if_neg h1] at h ⊢
          by_cases h2 : (previewGifPosts child.data).getD [] ≠ []
          · rw [if_pos h2] at h ⊢
            right; left
            exact fun p hp => mem_previewGifPosts_provider child.data p hp
          · rw [if_neg h2] at h
            split at h <;> simp at h
      | true =>
        rcases hm : child.data.media with _ | m
        · simp [parseRedditDomainPosts, hv, hm] at h
        · rcases hrv : m.reddit_video with _ | rv <;>
            simp [parseRedditDomainPosts, hv, hm, hrv] at h
  | false =>
    simp only [parse_user_submitted, hdom] at h ⊢
    rcases hmm : child.data.media_metadata with _ | mm
    · rcases hg : child.data.is_gallery with _ | gb
      · simp only [parseNonRedditDomainPosts, hmm, hg] at h
        have := parseEmbedPosts_length child.data
        omega
      · cases gb <;> simp only [parseNonRedditDomainPosts, hmm, hg] at h <;>
          [skip; skip] <;>
          exact absurd h (by have := parseEmbedPosts_length child.data; omega)
    · rcases hg : child.data.is_gallery with _ | gb
      · simp only [parseNonRedditDomainPosts, hmm, hg] at h ⊢
        right; left
        exact fun p hp => mem_metadataMp4Posts_provider child.data mm p hp
      · cases gb with
        | false =>
          simp only [parseNonRedditDomainPosts, hmm, hg] at h ⊢
          right; left
          exact fun p hp => mem_metadataMp4Posts_provider child.data mm p hp
        | true =>
          rcases hgd : child.data.gallery_data with _ | gd
          · simp only [parseNonRedditDomainPosts, hmm, hg, hgd] at h ⊢
            right; left
            exact fun p hp => mem_metadataMp4Posts_provider child.data mm p hp
          · simp only [parseNonRedditDomainPosts, hmm, hg, hgd] at h ⊢
            left
            exact fun p hp => mem_galleryPosts_provider child.data mm gd p hp

/-- Media metadata with two mp4-resolvable entries (no gallery flag). -/
def c3MM : List (String × MediaMetadataValue) :=
  [("m1", { status := "valid",
            s := some { y := 0, x := 0, u := none, mp4 := some "https://a/1.mp4" },
            id := none }),
   ("m2", { status := "valid",
            s := some { y := 0, x := 0, u := none, mp4 := some "https://a/2.mp4" },
            id := none })]

/-- A non-gallery post whose media metadata yields two descriptors. -/
def c3Child : RedditSubmittedChild :=
  { kind := "t3",
    data := { subreddit := "s", title := "t", is_reddit_media_domain := false,
              media_only := false, ups := 1, id := "p3", author := "a",
              url := "https://example.com/x", created_utc := 0, media := none,
              is_video := some false, is_gallery := none,
              media_metadata := some c3MM, gallery_data := none,
              preview := none } }

/-- Counterexample to C3 as stated: a post without the gallery flag whose
media metadata holds two mp4 entries yields two descriptors, none of which
has the gallery-image provider. -/
theorem parse_multi_descriptor_counterexample :
    2 ≤ (parse_user_submitted c3Child).length ∧
    ¬ (∀ p ∈ parse_user_submitted c3Child, p.provider = .RedditGalleryImage) := by
  decide

/-- Witness for the amended C3 at the two-entry metadata post. -/
theorem parse_multi_descriptor_homogeneous_witness :
    (parse_user_submitted c3Child).all
      (fun p => p.provider == .RedditGifVideo) = true := by
  have h := ((parse_multi_descriptor_homogeneous c3Child (by decide)).resolve_left
    (by decide)).resolve_right (by decide)
  exact List.all_eq_true.mpr (fun p hp => by simp [h p hp])

/-- "The item's metadata carries a resolved source URL": gallery-item
metadata lookup followed by `s.u`. -/
def resolvedSourceUrl (mm : List (String × MediaMetadataValue)) (mid : String) :
    Option String :=
  (mmLookup mm mid).bind (fun media => media.s.bind (fun s_media => s_media.u))

theorem galleryPosts_eq_filterMap (data : RedditSubmittedChildData)
    (mm : List (String × MediaMetadataValue)) (gd : GalleryData) :
    galleryPosts data mm gd =
      (gd.items.map (fun it => it.media_id)).enum.filterMap (fun q =>
        (resolvedSourceUrl mm q.2).map (fun u =>
          { author := data.author, created_utc := data.created_utc,
            extension := "webp", id := data.id, index := some q.1,
            provider := .RedditGalleryImage, subreddit := data.subreddit,
            title := data.title ++ "-" ++ toString q.1, upvotes := data.ups,
            url := u, is_gallery := none, media_id := none })) := by
  simp only [galleryPosts, resolvedSourceUrl]
  congr 1
  funext q
  rcases mmLookup mm q.2 with _ | md
  · rfl
  · obtain ⟨status, s, idm⟩ := md
    rcases s with _ | sm
    · rfl
    · obtain ⟨y, x, u, mp4⟩ := sm
      rcases u with _ | u <;> rfl

theorem pairwise_lt_filterMap_index
    (g : Nat → String → Option RedditCrawlerPost)
    (hg : ∀ i s p, g i s = some p → p.index = some i) :
    ∀ (n : Nat) (mids : List String),
      (∀ k ∈ ((List.enumFrom n mids).filterMap (fun q => g q.1 q.2)).filterMap
          (fun p => p.index), n ≤ k) ∧
      List.Pairwise (fun a b => a < b)
        (((List.enumFrom n mids).filterMap (fun q => g q.1 q.2)).filterMap
          (fun p => p.index)) := by
  intro n mids
  induction mids generalizing n with
  | nil => simp
  | cons s rest ih =>
    obtain ⟨ihLB, ihPW⟩ := ih (n + 1)
    simp only [List.enumFrom, List.filterMap_cons]
    cases hgs : g n s with
    | none =>
      exact ⟨fun k hk => Nat.le_of_succ_le (ihLB k hk), ihPW⟩
    | some p =>
      have hidx : p.index = some n := hg n s p hgs
      simp only [List.filterMap_cons, hidx]
      constructor
      · intro k hk
        rcases List.mem_cons.mp hk with rfl | hk
        · exact Nat.le_refl _
        · exact Nat.le_of_succ_le (ihLB k hk)
      · exact List.pairwise_cons.mpr ⟨fun k hk => ihLB k hk, ihPW⟩

/-- C4 (amended): for a post that is NOT hosted on Reddit's own media
domain, with the gallery flag, per-item metadata and a gallery item list
present, the classifier emits exactly one gallery descriptor per item with
a resolved source URL, indexed by the item's position, in ascending
position order, silently dropping unresolved items. -/
theorem parse_gallery_branch (child : RedditSubmittedChild)
    (mm : List (String × MediaMetadataValue)) (gd : GalleryData)
    (hdom : child.data.is_reddit_media_domain = false)
    (hg : child.data.is_gallery = some true)
    (hmm : child.data.media_metadata = some mm)
    (hgd : child.data.gallery_data = some gd)
    (_hne : gd.items ≠ []) :
    parse_user_submitted child =
      (gd.items.map (fun it => it.media_id)).enum.filterMap (fun q =>
        (resolvedSourceUrl mm q.2).map (fun u =>
          { author := child.data.author, created_utc := child.data.created_utc,
            extension := "webp", id := child.data.id, index := some q.1,
            provider := .RedditGalleryImage, subreddit := child.data.subreddit,
            title := child.data.title ++ "-" ++ toString q.1,
            upvotes := child.data.ups, url := u,
            is_gallery := none, media_id := none })) ∧
    (∀ p ∈ parse_user_submitted child, p.provider = .RedditGalleryImage) ∧
    List.Pairwise (fun a b => a < b)
      ((parse_user_submitted child).filterMap (fun p => p.index)) := by
  have hbranch : parse_user_submitted child = galleryPosts child.data mm gd := by
    simp only [parse_user_submitted, hdom, parseNonRedditDomainPosts, hmm, hg, hgd]
  refine ⟨?_, ?_, ?_⟩
  · rw [hbranch, galleryPosts_eq_filterMap]
  · rw [hbranch]
    exact fun p hp => mem_galleryPosts_provider child.data mm gd p hp
  · rw [hbranch]
    have := (pairwise_lt_filterMap_index
      (fun i mid => (mmLookup mm mid).bind (fun media =>
        media.s.bind (fun s_media => s_media.u.map (fun u =>
          { author := child.data.author, created_utc := child.data.created_utc,
            extension := "webp", id := child.data.id, index := some i,
            provider := .RedditGalleryImage, subreddit := child.data.subreddit,
            title := child.data.title ++ "-" ++ toString i,
            upvotes := child.data.ups, url := u,
            is_gallery := none, media_id := none }))))
      (by
        intro i s p hp
        simp only [Option.bind_eq_some, Option.map_eq_some'] at hp
        obtain ⟨md, _, sm, _, u, _, hpost⟩ := hp
        exact hpost ▸ rfl)
      0 (gd.items.map (fun it => it.media_id))).2
    simpa [galleryPosts, List.enum] using this

/-- Media metadata with one resolvable gallery entry. -/
def c4MM : List (String × MediaMetadataValue) :=
  [("m1", { status := "valid",
            s := some { y := 0, x := 0, u := some "https://img/1.webp", mp4 := none },
            id := none })]

/-- A one-item gallery list. -/
def c4GD : GalleryData := { items := [{ media_id := "m1", id := 0 }] }

/-- A gallery-flagged post that IS marked as hosted on Reddit's own media
domain. -/
def c4Child : RedditSubmittedChild :=
  { kind := "t3",
    data := { subreddit := "s", title := "t", is_reddit_media_domain := true,
              media_only := false, ups := 1, id := "p4", author := "a",
              url := "https://example.com/x", created_utc := 0, media := none,
              is_video := none, is_gallery := some true,
              media_metadata := some c4MM, gallery_data := some c4GD,
              preview := none } }

/-- Counterexample to C4 as stated: a post with the gallery flag, per-item
metadata and a non-empty gallery list, but flagged as Reddit-media-domain
hosted, yields no descriptors at all instead of one per resolvable item. -/
theorem parse_gallery_branch_counterexample :
    c4Child.data.is_gallery = some true ∧
    c4Child.data.media_metadata = some c4MM ∧
    c4Child.data.gallery_data = some c4GD ∧
    c4GD.items ≠ [] ∧
    (galleryPosts c4Child.data c4MM c4GD).length = 1 ∧
    parse_user_submitted c4Child = [] := by
  decide

/-- The C4 post with the media-domain flag cleared. -/
def c4ChildOk : RedditSubmittedChild :=
  { kind := "t3",
    data := { subreddit := "s", title := "t", is_reddit_media_domain := false,
              media_only := false, ups := 1, id := "p4", author := "a",
              url := "https://example.com/x", created_utc := 0, media := none,
              is_video := none, is_gallery := some true,
              media_metadata := some c4MM, gallery_data := some c4GD,
              preview := none } }

/-- Witness for the amended C4 at a concrete one-item gallery post. -/
theorem parse_gallery_branch_witness :
    (parse_user_submitted c4ChildOk).all
      (fun p => p.provider == .RedditGalleryImage) = true := by
  have h := (parse_gallery_branch c4ChildOk c4MM c4GD rfl rfl rfl rfl (by decide)).2.1
  exact List.all_eq_true.mpr (fun p hp => by simp [h p hp])

/-- `RedditCategoryFilter` from `src/cli/run.rs`. -/
inductive RedditCategoryFilter where
  | Hot
  | New
  | Top
  | Rising
  | Controversial
  deriving DecidableEq, Repr

/-- `impl fmt::Display for RedditCategoryFilter`. -/
def RedditCategoryFilter.toStr : RedditCategoryFilter → String
  | .Hot => "hot"
  | .New => "new"
  | .Top => "top"
  | .Rising => "rising"
  | .Controversial => "controversial"

/-- `RedditTimeframeFilter` from `src/cli/run.rs`. -/
inductive RedditTimeframeFilter where
  | Hour
  | Day
  | Week
  | Month
  | Year
  | All
  deriving DecidableEq, Repr

/-- `impl fmt::Display for RedditTimeframeFilter`. -/
def RedditTimeframeFilter.toStr : RedditTimeframeFilter → String
  | .Hour => "hour"
  | .Day => "day"
  | .Week => "week"
  | .Month => "month"
  | .Year => "year"
  | .All => "all"

/-- `MAX_SUBMISSIONS_PER_REQUEST` from `src/clients/reddit.rs`. -/
def MAX_SUBMISSIONS_PER_REQUEST : Nat := 100

/-- `RedditClient::gen_user_submitted_url` from `src/clients/reddit.rs`
(lines 50–70). The `format!` arguments are substituted positionally exactly
as the source lists them: `user`, then `category` into the `limit=`
placeholder, `timeframe` into `sort=`, `MAX_SUBMISSIONS_PER_REQUEST` into
`t=`, and `after` into `after=`. -/
def gen_user_submitted_url (user : String) (after : Option String)
    (category : RedditCategoryFilter) (timeframe : RedditTimeframeFilter) : String :=
  match after with
  | some after =>
    "https://www.reddit.com/user/" ++ user ++ "/submitted.json?include_over_18=on&limit="
      ++ category.toStr ++ "&sort=" ++ timeframe.toStr ++ "&t="
      ++ toString MAX_SUBMISSIONS_PER_REQUEST ++ "&after=" ++ after ++ "&raw_json=1"
  | none =>
    "https://www.reddit.com/user/" ++ user ++ "/submitted.json?include_over_18=on&limit="
      ++ category.toStr ++ "&sort=" ++ timeframe.toStr ++ "&t="
      ++ toString MAX_SUBMISSIONS_PER_REQUEST ++ "&raw_json=1"

/-- `RedditClient::gen_subreddit_submitted_url` from `src/clients/reddit.rs`
(lines 190–210): category is a path segment, `limit=100` is literal, and
the `t=` / `after=` parameters receive the matching arguments. -/
def gen_subreddit_submitted_url (subreddit : String) (after : Option String)
    (category : RedditCategoryFilter) (timeframe : RedditTimeframeFilter) : String :=
  match after with
  | some after =>
    "https://www.reddit.com/r/" ++ subreddit ++ "/" ++ category.toStr
      ++ ".json?include_over_18=on&limit=100&t=" ++ timeframe.toStr
      ++ "&after=" ++ after ++ "&raw_json=1"
  | none =>
    "https://www.reddit.com/r/" ++ subreddit ++ "/" ++ category.toStr
      ++ ".json?include_over_18=on&limit=100&t=" ++ timeframe.toStr ++ "&raw_json=1"

/-- `RedditClient::gen_search_url` from `src/clients/reddit.rs`
(lines 296–316). -/
def gen_search_url (term : String) (after : Option String)
    (category : RedditCategoryFilter) (timeframe : RedditTimeframeFilter) : String :=
  match after with
  | some after =>
    "https://www.reddit.com/search.json?q=" ++ term
      ++ "&include_over_18=on&count=100&sort=" ++ category.toStr
      ++ "&t=" ++ timeframe.toStr ++ "&after=" ++ after ++ "&raw_json=1"
  | none =>
    "https://www.reddit.com/search.json?q=" ++ term
      ++ "&include_over_18=on&count=100&sort=" ++ category.toStr
      ++ "&t=" ++ timeframe.toStr ++ "&raw_json=1"

/-- Read a query parameter back out of a generated URL: the first
`key=value` pair after the `?` whose key matches. -/
def queryParam (url key : String) : Option String :=
  match splitOnChar '?' url.data with
  | _ :: qs :: _ =>
    ((splitOnChar '&' qs).filterMap (fun kv =>
      match splitOnChar '=' kv with
      | [k, v] => if k = key.data then some (String.mk v) else none
      | _ => none)).head?
  | _ => none

/-- C7 (code evaluated at the failing input): the user-listing URL carries
the category under `limit=`, the timeframe under `sort=`, and the fixed
page size 100 under `t=`; only `after=` receives its intended value. -/
theorem gen_user_submitted_url_params_swapped :
    queryParam (gen_user_submitted_url "alice" none .Top .All) "limit" = some "top" ∧
    queryParam (gen_user_submitted_url "alice" none .Top .All) "sort" = some "all" ∧
    queryParam (gen_user_submitted_url "alice" none .Top .All) "t" = some "100" ∧
    queryParam (gen_user_submitted_url "alice" (some "curs") .Top .All) "after" =
      some "curs" := by
  refine ⟨by decide, by decide, by decide, by decide⟩

/-- `RedditUserAboutData` from `src/clients/api_types/reddit/user_about.rs`. -/
structure RedditUserAboutData where
  name : String
  is_suspended : Bool
  awardee_karma : Int
  awarder_karma : Int
  is_blocked : Bool
  total_karma : Int
  deriving DecidableEq, Repr

/-- `RedditUserAbout`. -/
structure RedditUserAbout where
  kind : String
  data : RedditUserAboutData
  deriving DecidableEq, Repr

/-- `RedditProviderError` from `src/clients/reddit.rs` (payloads dropped). -/
inductive RedditProviderError where
  | ReqwestMiddleware
  | Reqwest
  | SerdeJson
  | NotFound
  | Suspended
  | TooManyRequests
  | Forbidden
  deriving DecidableEq, Repr

/-- A decoded HTTP body as the client's `res.json::<T>()` calls see it. -/
inductive HttpBody where
  | submitted (r : RedditSubmittedResponse)
  | about (a : RedditUserAbout)
  | malformed
  deriving DecidableEq, Repr

/-- An HTTP response: status code plus decodable body. -/
structure HttpResponse where
  status : Nat
  body : HttpBody
  deriving DecidableEq, Repr

/-- The HTTP transport oracle: what `client.get(url).send()` returns for
each URL during the run (`.error` models a reqwest-middleware failure). -/
def Transport : Type := String → Except Unit HttpResponse

/-- The identity-probe URL requested by `gen_user_about_url`. -/
def about_url (user : String) : String :=
  "https://www.reddit.com/user/" ++ user ++ "/about.json?raw_json=1"

/-- `RedditClient::gen_user_about_url` from `src/clients/reddit.rs`
(lines 72–98): despite its name it performs the GET and decodes the
user-about payload, checking 429 and 404 first. -/
def gen_user_about_url (transport : Transport) (user : String) :
    Except RedditProviderError RedditUserAbout :=
  match transport (about_url user) with
  | .error _ => .error .ReqwestMiddleware
  | .ok res =>
    if res.status = 429 then .error .TooManyRequests
    else if res.status = 404 then .error .NotFound
    else
      match res.body with
      | .about a => .ok a
      | _ => .error .Reqwest

/-- The pagination loop of `RedditClient::get_user_submissions`
(`src/clients/reddit.rs` lines 100–188), as a function of the loop state
(`after`, `request_count`, accumulated `responses`). Extra bookkeeping: an
explicit fuel bound (the source loops while pages keep returning an `after`
cursor) and a log of every URL requested, in order. On 403 the secondary
identity probe decides between `Suspended` and `Forbidden`. -/
def get_user_submissions_loop (transport : Transport)
    (cacheFiles : List FileCacheItemLatest) (user : String)
    (category : RedditCategoryFilter) (timeframe : RedditTimeframeFilter)
    (limit : Option Nat) :
    Nat → Option String → Nat → List RedditSubmittedResponse → List String →
    Option (Except RedditProviderError (List RedditSubmittedResponse) × List String)
  | 0, _, _, _, _ => none
  | fuel + 1, after, request_count, responses, log =>
    let url := gen_user_submitted_url user after category timeframe
    let log := log ++ [url]
    match transport url with
    | .error _ => some (.error .ReqwestMiddleware, log)
    | .ok res =>
      if res.status = 429 then some (.error .TooManyRequests, log)
      else if res.status = 404 then some (.error .NotFound, log)
      else if res.status = 403 then
        let log := log ++ [about_url user]
        match gen_user_about_url transport user with
        | .error _ => some (.error .Forbidden, log)
        | .ok about =>
          if about.data.is_suspended then some (.error .Suspended, log)
          else some (.error .Forbidden, log)
      else
        match res.body with
        | .submitted r =>
          let non_downloaded := r.data.children.filter (fun rc =>
            !(cacheFiles.any (fun f => f.id == rc.data.id)))
          let r := { r with data := { r.data with children := non_downloaded } }
          let responses := if r.data.children ≠ [] then responses ++ [r] else responses
          let request_count := request_count + 1
          match r.data.after with
          | some a =>
            match limit with
            | some l =>
              if l ≤ request_count then some (.ok responses, log)
              else get_user_submissions_loop transport cacheFiles user category
                timeframe limit fuel (some a) request_count responses log
            | none => get_user_submissions_loop transport cacheFiles user category
                timeframe limit fuel (some a) request_count responses log
          | none => some (.ok responses, log)
        | _ => some (.error .Reqwest, log)

/-- `RedditClient::get_user_submissions` at its call interface. -/
def get_user_submissions (transport : Transport)
    (cacheFiles : List FileCacheItemLatest) (user : String)
    (category : RedditCategoryFilter) (timeframe : RedditTimeframeFilter)
    (limit : Option Nat) (fuel : Nat) :
    Option (Except RedditProviderError (List RedditSubmittedResponse) × List String) :=
  get_user_submissions_loop transport cacheFiles user category timeframe limit
    fuel none 0 [] []

/-- The pagination loop of `RedditClient::get_subreddit_submissions`
(`src/clients/reddit.rs` lines 212–294): identical to the user loop except
for the URL and the 403 arm, which returns `Forbidden` directly without
any identity probe. -/
def get_subreddit_submissions_loop (transport : Transport)
    (cacheFiles : List FileCacheItemLatest) (subreddit : String)
    (category : RedditCategoryFilter) (timeframe : RedditTimeframeFilter)
    (limit : Option Nat) :
    Nat → Option String → Nat → List RedditSubmittedResponse → List String →
    Option (Except RedditProviderError (List RedditSubmittedResponse) × List String)
  | 0, _, _, _, _ => none
  | fuel + 1, after, request_count, responses, log =>
    let url := gen_subreddit_submitted_url subreddit after category timeframe
    let log := log ++ [url]
    match transport url with
    | .error _ => some (.error .ReqwestMiddleware, log)
    | .ok res =>
      if res.status = 429 then some (.error .TooManyRequests, log)
      else if res.status = 404 then some (.error .NotFound, log)
      else if res.status = 403 then some (.error .Forbidden, log)
      else
        match res.body with
        | .submitted r =>
          let non_downloaded := r.data.children.filter (fun rc =>
            !(cacheFiles.any (fun f => f.id == rc.data.id)))
          let r := { r with data := { r.data with children := non_downloaded } }
          let responses := if r.data.children ≠ [] then responses ++ [r] else responses
          let request_count := request_count + 1
          match r.data.after with
          | some a =>
            match limit with
            | some l =>
              if l ≤ request_count then some (.ok responses, log)
              else get_subreddit_submissions_loop transport cacheFiles subreddit
                category timeframe limit fuel (some a) request_count responses log
            | none => get_subreddit_submissions_loop transport cacheFiles subreddit
                category timeframe limit fuel (some a) request_count responses log
          | none => some (.ok responses, log)
        | _ => some (.error .Reqwest, log)

/-- The pagination loop of `RedditClient::get_search_submissions`
(`src/clients/reddit.rs` lines 318–398): same shape as the subreddit loop,
403 is `Forbidden` with no probe. -/
def get_search_submissions_loop (transport : Transport)
    (cacheFiles : List FileCacheItemLatest) (term : String)
    (category : RedditCategoryFilter) (timeframe : RedditTimeframeFilter)
    (limit : Option Nat) :
    Nat → Option String → Nat → List RedditSubmittedResponse → List String →
    Option (Except RedditProviderError (List RedditSubmittedResponse) × List String)
  | 0, _, _, _, _ => none
  | fuel + 1, after, request_count, responses, log =>
    let url := gen_search_url term after category timeframe
    let log := log ++ [url]
    match transport url with
    | .error _ => some (.error .ReqwestMiddleware, log)
    | .ok res =>
      if res.status = 429 then some (.error .TooManyRequests, log)
      else if res.status = 404 then some (.error .NotFound, log)
      else if res.status = 403 then some (.error .Forbidden, log)
      else
        match res.body with
        | .submitted r =>
          let non_downloaded := r.data.children.filter (fun rc =>
            !(cacheFiles.any (fun f => f.id == rc.data.id)))
          let r := { r with data := { r.data with children := non_downloaded } }
          let responses := if r.data.children ≠ [] then responses ++ [r] else responses
          let request_count := request_count + 1
          match r.data.after with
          | some a =>
            match limit with
            | some l =>
              if l ≤ request_count then some (.ok responses, log)
              else get_search_submissions_loop transport cacheFiles term category
                timeframe limit fuel (some a) request_count responses log
            | none => get_search_submissions_loop transport cacheFiles term category
                timeframe limit fuel (some a) request_count responses log
          | none => some (.ok responses, log)
        | _ => some (.error .Reqwest, log)

/-- C8: from any loop state, an access-denied (403) listing response makes
the user fetcher issue the identity probe and return `Suspended` exactly
when the probe decodes an account marked suspended (`Forbidden` otherwise,
including probe failure), while the subreddit and search fetchers return
`Forbidden` at once, requesting nothing beyond the listing URL. -/
theorem fetch403_probe_taxonomy (transport : Transport)
    (cacheFiles : List FileCacheItemLatest) (category : RedditCategoryFilter)
    (timeframe : RedditTimeframeFilter) (limit : Option Nat) :
    (∀ (user : String) (fuel : Nat) (after : Option String) (rc : Nat)
        (resp : List RedditSubmittedResponse) (log : List String)
        (res : HttpResponse),
      transport (gen_user_submitted_url user after category timeframe) = .ok res →
      res.status = 403 →
      get_user_submissions_loop transport cacheFiles user category timeframe limit
          (fuel + 1) after rc resp log =
        some ((match gen_user_about_url transport user with
               | .ok about =>
                 if about.data.is_suspended then Except.error .Suspended
                 else Except.error .Forbidden
               | .error _ => Except.error .Forbidden :
               Except RedditProviderError (List RedditSubmittedResponse)),
              log ++ [gen_user_submitted_url user after category timeframe,
                      about_url user])) ∧
    (∀ (subreddit : String) (fuel : Nat) (after : Option String) (rc : Nat)
        (resp : List RedditSubmittedResponse) (log : List String)
        (res : HttpResponse),
      transport (gen_subreddit_submitted_url subreddit after category timeframe) =
        .ok res →
      res.status = 403 →
      get_subreddit_submissions_loop transport cacheFiles subreddit category
          timeframe limit (fuel + 1) after rc resp log =
        some (.error .Forbidden,
              log ++ [gen_subreddit_submitted_url subreddit after category timeframe])) ∧
    (∀ (term : String) (fuel : Nat) (after : Option String) (rc : Nat)
        (resp : List RedditSubmittedResponse) (log : List String)
        (res : HttpResponse),
      transport (gen_search_url term after category timeframe) = .ok res →
      res.status = 403 →
      get_search_submissions_loop transport cacheFiles term category timeframe
          limit (fuel + 1) after rc resp log =
        some (.error .Forbidden,
              log ++ [gen_search_url term after category timeframe])) := by
  refine ⟨?_, ?_, ?_⟩
  · intro user fuel after rc resp log res hres h403
    unfold get_user_submissions_loop
    dsimp only
    rw [hres]
    simp only [h403]
    cases habout : gen_user_about_url transport user with
    | error e => simp [habout]
    | ok about => cases hsus : about.data.is_suspended <;> simp [habout, hsus]
  · intro subreddit fuel after rc resp log res hres h403
    unfold get_subreddit_submissions_loop
    dsimp only
    rw [hres]
    simp [h403]
  · intro term fuel after rc resp log res hres h403
    unfold get_search_submissions_loop
    dsimp only
    rw [hres]
    simp [h403]

/-- A transport for the C8 witness: the listing request is denied with 403
and the identity probe reports a suspended account. -/
def c8Transport : Transport := fun url =>
  if url = gen_user_submitted_url "alice" none .Top .All then
    .ok { status := 403, body := .malformed }
  else if url = about_url "alice" then
    .ok { status := 200,
          body := .about { kind := "t2",
                           data := { name := "alice", is_suspended := true,
                                     awardee_karma := 0, awarder_karma := 0,
                                     is_blocked := false, total_karma := 0 } } }
  else .error ()

/-- Witness for C8: with a 403 listing answer and a suspended-account
probe, the user fetch returns `Suspended` after requesting exactly the
listing URL and then the probe URL. -/
theorem fetch403_probe_taxonomy_witness :
    get_user_submissions_loop c8Transport [] "alice" .Top .All none 1 none 0 [] [] =
      some (.error .Suspended,
            [gen_user_submitted_url "alice" none .Top .All, about_url "alice"]) := by
  have h := (fetch403_probe_taxonomy c8Transport [] .Top .All none).1 "alice" 0 none 0
    [] [] { status := 403, body := .malformed } (by rfl) rfl
  rw [h]
  rfl

/-- Two-digit zero padding (chrono `%m`, `%d`). -/
def pad2 (n : Nat) : String :=
  if n < 10 then "0" ++ toString n else toString n

/-- Four-digit zero padding (chrono `%Y` for common years). -/
def pad4 (n : Nat) : String :=
  if n < 10 then "000" ++ toString n
  else if n < 100 then "00" ++ toString n
  else if n < 1000 then "0" ++ toString n
  else toString n

/-- Civil date from days since the unix epoch (standard era-based
conversion, as chrono computes it). -/
def civilFromDays (days : Int) : Int × Nat × Nat :=
  let z := days + 719468
  let era := z.fdiv 146097
  let doe := (z - era * 146097).toNat
  let yoe := (doe - doe / 1460 + doe / 36524 - doe / 146096) / 365
  let y := (yoe : Int) + era * 400
  let doy := doe - (365 * yoe + yoe / 4 - yoe / 100)
  let mp := (5 * doy + 2) / 153
  let d := doy - (153 * mp + 2) / 5 + 1
  let m := if mp < 10 then mp + 3 else mp - 9
  (if m ≤ 2 then y + 1 else y, m, d)

/-- `created_utc.format("%Y-%m-%d")` on the timestamp model. -/
def formatYmd (ts : Int) : String :=
  let ymd := civilFromDays (ts.fdiv 86400)
  (if ymd.1 < 0 then "-" ++ pad4 (-ymd.1).toNat else pad4 ymd.1.toNat)
    ++ "-" ++ pad2 ymd.2.1 ++ "-" ++ pad2 ymd.2.2

/-- A content-type header value: `to_str()` succeeds or fails. -/
inductive HeaderValue where
  | valid (s : String)
  | invalid
  deriving DecidableEq, Repr

/-- An HTTP response as the downloader consumes it: the optional
content-type header and the body byte count that `response.bytes()`
yields (`.error` models a body-read failure). -/
structure DlHttpResponse where
  content_type : Option HeaderValue
  body : Except Unit Nat
  deriving Repr

/-- The effect oracle for one `download_crawler_post` unit: the outcome of
its HTTP GET (`send`), of the redgifs helper, of `fs::metadata` on a
tool-produced file, of creating-and-writing the destination file, and of
`set_file_timestamp`. -/
structure DownloadWorld where
  send : Except Unit DlHttpResponse
  redgifs : Except Unit DlHttpResponse
  tool_file_len : Except Unit Nat
  write_file : Except Unit Unit
  set_timestamp : Except Unit Unit

/-- `ProviderHandlerReturned` from `src/utils/downloader.rs`. -/
inductive ProviderHandlerReturned where
  | HttpResponse (r : DlHttpResponse)
  | ThirdPartyResponse (fp : String)
  | NotFound
  | Unhandled

/-- `DownloadPostResult` from `src/utils/downloader.rs` (`f64` byte count
modelled as `Nat`). -/
inductive DownloadPostResult where
  | ReceivedBytes (n : Nat)
  | ReceivedFailed
  | ReceivedNotFound
  | ReceivedUnhandled
  deriving DecidableEq, Repr

/-- `download_crawler_post` from `src/utils/downloader.rs`, over the effect
oracle. Returns the unit outcome together with the list of files this
function itself wrote (destination path and byte count); a write event is
recorded once the body has been written, even if the later timestamp call
fails. Subprocess-based providers write through the external tool, not
through this function, so they record no event. -/
def download_crawler_post (w : DownloadWorld) (folder_path : String)
    (media : RedditCrawlerPost) :
    Except Unit DownloadPostResult × List (String × Nat) :=
  let file_scheme := "{UPVOTES}_{AUTHOR}_{POSTID}_{DATE}"
  let formatted_date := formatYmd media.created_utc
  let file_name :=
    (((file_scheme.replace "{UPVOTES}" (toString media.upvotes)).replace
      "{AUTHOR}" media.author).replace "{POSTID}" media.id).replace
      "{DATE}" formatted_date
  let file_name :=
    match media.index with
    | some index => file_name ++ "_" ++ toString index
    | none => file_name
  let file_path := "./" ++ folder_path ++ "/" ++ file_name ++ "." ++ media.extension
  let response : Except Unit ProviderHandlerReturned :=
    match media.provider with
    | .RedditImage | .RedditGalleryImage | .RedditGifVideo =>
      w.send.map .HttpResponse
    | .RedditVideo => .ok (.ThirdPartyResponse file_path)
    | .RedgifsImage | .RedgifsVideo => w.redgifs.map .HttpResponse
    | .YoutubeVideo => .ok (.ThirdPartyResponse file_path)
    | .ImgurImage =>
      w.send.map (fun response =>
        match response.content_type with
        | some (.valid s) =>
          if s = "text/html" then .NotFound else .HttpResponse response
        | some .invalid => .HttpResponse response
        | none => .HttpResponse response)
    | .None => .ok .Unhandled
  match response with
  | .error e => (.error e, [])
  | .ok (.HttpResponse response) =>
    match response.body with
    | .error e => (.error e, [])
    | .ok n =>
      match w.write_file with
      | .error e => (.error e, [])
      | .ok _ =>
        match w.set_timestamp with
        | .error e => (.error e, [(file_path, n)])
        | .ok _ => (.ok (.ReceivedBytes n), [(file_path, n)])
  | .ok (.ThirdPartyResponse _fp) =>
    match w.tool_file_len with
    | .error e => (.error e, [])
    | .ok n =>
      match w.set_timestamp with
      | .error e => (.error e, [])
      | .ok _ => (.ok (.ReceivedBytes n), [])
  | .ok .NotFound => (.ok .ReceivedNotFound, [])
  | .ok .Unhandled => (.ok .ReceivedUnhandled, [])

/-- C9: an Imgur retrieval whose response carries the `text/html`
content-type returns the NotFound outcome and writes nothing. -/
theorem imgur_html_is_not_found (w : DownloadWorld) (folder_path : String)
    (media : RedditCrawlerPost) (r : DlHttpResponse)
    (hprov : media.provider = .ImgurImage)
    (hsent : w.send = .ok r)
    (hct : r.content_type = some (.valid "text/html")) :
    download_crawler_post w folder_path media = (.ok .ReceivedNotFound, []) := by
  unfold download_crawler_post
  dsimp only
  rw [hprov, hsent]
  simp [Except.map, hct]

/-- A world whose GET answers with an HTML page, for the C9 witness. -/
def c9World : DownloadWorld :=
  { send := .ok { content_type := some (.valid "text/html"), body := .ok 120 },
    redgifs := .error (), tool_file_len := .error (),
    write_file := .ok (), set_timestamp := .ok () }

/-- A concrete Imgur descriptor for the C9 witness. -/
def c9Post : RedditCrawlerPost :=
  { author := "a", created_utc := 1700000000, extension := "jpg", id := "p9",
    provider := .ImgurImage, subreddit := "s", title := "t", upvotes := 5,
    url := "https://i.imgur.com/x.jpg", index := none, is_gallery := none,
    media_id := none }

/-- Witness for C9 at a concrete deleted Imgur post. -/
theorem imgur_html_is_not_found_witness :
    download_crawler_post c9World "out" c9Post = (.ok .ReceivedNotFound, []) :=
  imgur_html_is_not_found c9World "out" c9Post
    { content_type := some (.valid "text/html"), body := .ok 120 } rfl rfl rfl

/-- The engine's shared state: run stats plus the in-memory cache. -/
structure EngineState where
  stats : DownloadStats
  cache : FileCacheLatest
  deriving DecidableEq, Repr

/-- The cache entry the download loop in `src/cli/commands/user.rs` builds
from a post (lines 345–355 for successes, 369–379 for NotFound). -/
def cacheEntryOfPost (post : RedditCrawlerPost) (success : Bool) : FileCacheItemLatest :=
  { id := post.id, created_utc := post.created_utc, title := post.title,
    subreddit := post.subreddit, url := post.url, success := success,
    index := post.index, is_gallery := post.is_gallery, media_id := post.media_id }

/-- The per-unit completion update of the download loop
(`src/cli/commands/user.rs` lines 332–397): `ReceivedBytes` bumps the
success stats and PUSHES a success entry onto `file_cache.files`;
`ReceivedNotFound` pushes a failure entry and bumps `downloads_failed`;
`ReceivedFailed` and an `Err(_)` from the unit only bump
`downloads_failed`; `ReceivedUnhandled` changes nothing. -/
def applyDownloadResult (st : EngineState) (post : RedditCrawlerPost)
    (r : Except Unit DownloadPostResult) : EngineState :=
  match r with
  | .ok (.ReceivedBytes bytes) =>
    { stats := { st.stats with
        files_downloaded := st.stats.files_downloaded + 1
        bytes_downloaded := st.stats.bytes_downloaded + bytes },
      cache := { st.cache with
        files := st.cache.files ++ [cacheEntryOfPost post true] } }
  | .ok .ReceivedNotFound =>
    { stats := { st.stats with
        downloads_failed := st.stats.downloads_failed + 1 },
      cache := { st.cache with
        files := st.cache.files ++ [cacheEntryOfPost post false] } }
  | .ok .ReceivedFailed =>
    { st with stats := { st.stats with
        downloads_failed := st.stats.downloads_failed + 1 } }
  | .ok .ReceivedUnhandled => st
  | .error _ =>
    { st with stats := { st.stats with
        downloads_failed := st.stats.downloads_failed + 1 } }

/-- The pre-dispatch skip filter of `handle_user_command`
(`src/cli/commands/user.rs` lines 262–284): drop a post only when a cache
entry matches its composite key AND is marked successful. -/
def postsToDownloadFilter (files : List FileCacheItemLatest)
    (posts : List RedditCrawlerPost) : List RedditCrawlerPost :=
  posts.filter (fun p =>
    !(files.any (fun f =>
      (p.id == f.id) && (p.index == f.index) &&
      (match p.media_id, f.media_id with
       | some p_mid, some f_mid => p_mid == f_mid
       | none, none => true
       | _, _ => false) && f.success)))

/-- Observable scheduling events of the download loop. -/
inductive EngineEvent where
  | spawn (i : Nat)
  | complete (i : Nat)
  deriving DecidableEq, Repr

/-- The download loop of `handle_user_command`
(`src/cli/commands/user.rs` lines 322–401): for each post in order, a
semaphore permit is acquired (`none` models the permanent block when the
pool has zero slots), the task is spawned, and its `JoinHandle` is awaited
on the spot (`tokio::spawn(...).await?`) before the loop advances, so the
unit's state update lands before the next spawn. `results i` is the oracle
for what `download_crawler_post` returns for unit `i`. -/
def engineRunFrom (limit : Nat) (results : Nat → Except Unit DownloadPostResult) :
    Nat → List RedditCrawlerPost → EngineState →
    Option (EngineState × List EngineEvent)
  | _, [], st => some (st, [])
  | i, post :: rest, st =>
    if limit = 0 then none
    else
      let st := applyDownloadResult st post (results i)
      match engineRunFrom limit results (i + 1) rest st with
      | some (stf, evs) => some (stf, .spawn i :: .complete i :: evs)
      | none => none

/-- The download loop started on the filtered post list. -/
def engineRun (limit : Nat) (results : Nat → Except Unit DownloadPostResult)
    (posts : List RedditCrawlerPost) (st0 : EngineState) :
    Option (EngineState × List EngineEvent) :=
  engineRunFrom limit results 0 posts st0

/-- The claim's reference semantics: a sequential left-to-right fold of the
per-unit update over the submitted list. -/
def seqRunFrom (results : Nat → Except Unit DownloadPostResult) (i : Nat)
    (posts : List RedditCrawlerPost) (st : EngineState) : EngineState :=
  (List.enumFrom i posts).foldl
    (fun st q => applyDownloadResult st q.2 (results q.1)) st

/-- The claim's reference semantics at index 0. -/
def sequentialDownloadRun (results : Nat → Except Unit DownloadPostResult)
    (posts : List RedditCrawlerPost) (st0 : EngineState) : EngineState :=
  seqRunFrom results 0 posts st0

/-- The strictly sequential schedule: spawn `i`, complete `i`, only then
spawn `i + 1`. -/
def seqTrace (n len : Nat) : List EngineEvent :=
  (List.range' n len).flatMap (fun i => [.spawn i, .complete i])

/-- Units in flight after a trace: spawns minus completions. -/
def inFlight (evs : List EngineEvent) : Nat :=
  evs.countP (fun e => match e with | .spawn _ => true | _ => false) -
    evs.countP (fun e => match e with | .complete _ => true | _ => false)

/-- The completion order recorded in a trace. -/
def completions (evs : List EngineEvent) : List Nat :=
  evs.filterMap (fun e => match e with | .complete i => some i | _ => none)

theorem engineRunFrom_eq_seq (limit : Nat)
    (results : Nat → Except Unit DownloadPostResult)
    (posts : List RedditCrawlerPost) (h : 1 ≤ limit) :
    ∀ (i : Nat) (st : EngineState),
      engineRunFrom limit results i posts st =
        some (seqRunFrom results i posts st, seqTrace i posts.length) := by
  induction posts with
  | nil => intro i st; simp [engineRunFrom, seqRunFrom, seqTrace, List.enumFrom]
  | cons post rest ih =>
    intro i st
    have hlim : ¬ limit = 0 := by omega
    simp only [engineRunFrom, hlim, if_false, ih (i + 1)]
    simp [seqRunFrom, seqTrace, List.enumFrom, List.range']

theorem inFlight_prefix_seqTrace :
    ∀ (len n : Nat) (pre : List EngineEvent),
      pre <+: seqTrace n len → inFlight pre ≤ 1 := by
  intro len
  induction len with
  | zero =>
    intro n pre hpre
    simp only [seqTrace, List.range', List.flatMap_nil, List.prefix_nil] at hpre
    simp [hpre, inFlight]
  | succ k ih =>
    intro n pre hpre
    have hexp : seqTrace n (k + 1) =
        .spawn n :: .complete n :: seqTrace (n + 1) k := by
      simp [seqTrace, List.range']
    rw [hexp] at hpre
    rcases pre with _ | ⟨e1, pre1⟩
    · simp [inFlight]
    · obtain ⟨rfl, h2⟩ := List.cons_prefix_cons.mp hpre
      rcases pre1 with _ | ⟨e2, pre2⟩
      · simp [inFlight]
      · obtain ⟨rfl, h3⟩ := List.cons_prefix_cons.mp h2
        have := ih (n + 1) pre2 h3
        simpa [inFlight, List.countP_cons, Nat.succ_sub_succ] using this

theorem completions_seqTrace :
    ∀ (len n : Nat), completions (seqTrace n len) = List.range' n len := by
  intro len
  induction len with
  | zero => intro n; rfl
  | succ k ih =>
    intro n
    have hexp : seqTrace n (k + 1) =
        .spawn n :: .complete n :: seqTrace (n + 1) k := by
      simp [seqTrace, List.range']
    rw [hexp]
    simp only [completions, List.filterMap_cons]
    rw [show List.range' n (k + 1) = n :: List.range' (n + 1) k from rfl]
    exact congrArg (List.cons n) (ih (n + 1))

/-- C10: with any pool size of at least one slot, the download loop is the
sequential left-to-right fold of the per-unit update — its trace spawns
each unit only after the previous one completed, at most one unit is in
flight at any prefix, and units complete exactly in submission order. -/
theorem engine_run_sequential (limit : Nat)
    (results : Nat → Except Unit DownloadPostResult)
    (posts : List RedditCrawlerPost) (st0 : EngineState) (h : 1 ≤ limit) :
    engineRun limit results posts st0 =
      some (sequentialDownloadRun results posts st0, seqTrace 0 posts.length) ∧
    (∀ pre, pre <+: seqTrace 0 posts.length → inFlight pre ≤ 1) ∧
    completions (seqTrace 0 posts.length) = List.range' 0 posts.length :=
  ⟨engineRunFrom_eq_seq limit results posts h 0 st0,
   fun pre hpre => inFlight_prefix_seqTrace posts.length 0 pre hpre,
   completions_seqTrace posts.length 0⟩

/-- Two posts for the C10 witness. -/
def c10Posts : List RedditCrawlerPost :=
  [{ author := "a", created_utc := 10, extension := "jpg", id := "w1",
     provider := .RedditImage, subreddit := "s", title := "t1", upvotes := 3,
     url := "u1", index := none, is_gallery := none, media_id := none },
   { author := "a", created_utc := 11, extension := "jpg", id := "w2",
     provider := .ImgurImage, subreddit := "s", title := "t2", upvotes := 4,
     url := "u2", index := none, is_gallery := none, media_id := none }]

/-- Unit outcomes for the C10 witness: 200 bytes, then a NotFound. -/
def c10Results : Nat → Except Unit DownloadPostResult := fun i =>
  if i = 0 then .ok (.ReceivedBytes 200) else .ok .ReceivedNotFound

/-- An empty latest-schema cache. -/
def emptyCache : FileCacheLatest :=
  { version := .Latest,
    status := { resource := .Active, last_download := .Success },
    files := [] }

/-- Witness for C10: the two-unit run with pool size 2 completes
sequentially with the folded state and the strictly alternating trace. -/
theorem engine_run_sequential_witness :
    engineRun 2 c10Results c10Posts
        { stats := DownloadStats.default, cache := emptyCache } =
      some ({ stats := { downloads_failed := 1, bytes_downloaded := 200,
                         files_downloaded := 1 },
              cache := { version := .Latest,
                         status := { resource := .Active, last_download := .Success },
                         files := [cacheEntryOfPost (c10Posts.get ⟨0, by decide⟩) true,
                                   cacheEntryOfPost (c10Posts.get ⟨1, by decide⟩) false] } },
            [.spawn 0, .complete 0, .spawn 1, .complete 1]) :=
  (engine_run_sequential 2 c10Results c10Posts
    { stats := DownloadStats.default, cache := emptyCache } (by omega)).1.trans (by rfl)

/-- A post whose earlier run already left a failure entry in the cache. -/
def c1Post : RedditCrawlerPost :=
  { author := "a", created_utc := 0, extension := "jpg", id := "dup",
    provider := .ImgurImage, subreddit := "s", title := "t", upvotes := 1,
    url := "u", index := none, is_gallery := none, media_id := none }

/-- The failure entry recorded for `c1Post` by a previous run. -/
def c1Entry : FileCacheItemLatest := cacheEntryOfPost c1Post false

/-- Engine state whose cache holds exactly that one failure entry. -/
def c1State : EngineState :=
  { stats := DownloadStats.default,
    cache := { version := .Latest,
               status := { resource := .Active, last_download := .Success },
               files := [c1Entry] } }

/-- C1 evaluated at a failing input: the pre-dispatch filter lets `c1Post`
through (the stored entry is not a success), the starting cache satisfies
the at-most-one-entry-per-composite-key invariant, yet the engine's
NotFound completion update — a plain `files.push`, not
`FileCacheLatest::upsert_item` — leaves TWO entries with the same
composite key. -/
theorem engine_completion_duplicates_composite_key :
    atMostOnePerKey c1State.cache.files ∧
    postsToDownloadFilter c1State.cache.files [c1Post] = [c1Post] ∧
    ((applyDownloadResult c1State c1Post (.ok .ReceivedNotFound)).cache.files.countP
      (fun f => matchesCompositeKey f c1Entry)) = 2 ∧
    ¬ atMostOnePerKey
        (applyDownloadResult c1State c1Post (.ok .ReceivedNotFound)).cache.files := by
  refine ⟨?_, by decide, by decide, ?_⟩
  · rw [show c1State.cache.files = [c1Entry] from rfl]
    exact List.pairwise_singleton _ _
  · intro hcontra
    rw [show (applyDownloadResult c1State c1Post (.ok .ReceivedNotFound)).cache.files =
        [c1Entry, cacheEntryOfPost c1Post false] from rfl] at hcontra
    have h := (List.pairwise_cons.mp hcontra).1 (cacheEntryOfPost c1Post false) (by simp)
    exact absurd h (by decide)
